import Mathlib

/-!
# Verification of canvas-mcp tool handlers

Shallow embedding of the pure computations performed by the tool handlers in
`src/canvas_mcp/tools/` (quizzes.py, files.py, other_tools.py, discussions.py),
together with spec-modelled versions of the two `core/` utilities
(`fetch_all_paginated_results`, the course-identifier resolver) whose source is
not included in the repository snapshot.

Python strings are modelled as `String`/`List Char`; JSON records as Lean
structures with `Option` fields (a missing key and a JSON `null` both map to
`none`, matching `dict.get`); fallible remote calls as `Except String α`
(the client converts every failure into an `{"error": ...}` dictionary, whose
reason string is the `.error` payload).
-/

namespace CanvasMCP

/-! ## Python-style character and string primitives

These model the `re` and `str` operations used by `strip_html_tags`
(quizzes.py lines 15-26) and the inline HTML cleaning in the other modules.
-/

/-- The character class matched by Python's `\s` on `str` (and removed by
`str.strip()`): ASCII whitespace, the C1 separators, and the Unicode
whitespace code points. -/
def isPyWs (c : Char) : Bool :=
  c = ' ' || c = '\t' || c = '\n' || c = '\x0b' || c = '\x0c' || c = '\r' ||
  c = '\x1c' || c = '\x1d' || c = '\x1e' || c = '\x1f' ||
  c = '\x85' || c = '\xa0' || c = ' ' ||
  (Char.ofNat 0x2000 ≤ c && c ≤ Char.ofNat 0x200a) ||
  c = ' ' || c = ' ' || c = ' ' || c = ' ' || c = '　'

/-- State machine for `re.sub(r'<[^>]+>', '', s)`: `none` = scanning outside a
candidate tag; `some acc` = a `<` has been read and `acc` holds (reversed) the
non-`>` characters collected since.  A `>` with a nonempty body ends a match
(the whole `<...>` run is dropped); a `>` immediately after `<` means the
pattern `<[^>]+>` failed at that `<` (the `+` needs at least one character), so
both characters are kept and scanning resumes after the `>`; end of input with
a pending `<` keeps everything since no match was possible. -/
def removeTagsGo : Option (List Char) → List Char → List Char
  | none, [] => []
  | none, c :: cs => if c = '<' then removeTagsGo (some []) cs else c :: removeTagsGo none cs
  | some acc, [] => '<' :: acc.reverse
  | some acc, c :: cs =>
    if c = '>' then
      if acc.isEmpty then '<' :: '>' :: removeTagsGo none cs
      else removeTagsGo none cs
    else removeTagsGo (some (c :: acc)) cs

/-- `re.sub(r'<[^>]+>', '', s)` on the character list of `s`. -/
def removeTags (l : List Char) : List Char := removeTagsGo none l

/-- `str.replace(pat, rep)`: left-to-right, non-overlapping.  The `Nat` state
is the number of already-matched pattern characters still to skip, so the
recursion is structural on the input list. -/
def replaceAllGo (pat rep : List Char) : Nat → List Char → List Char
  | _ + 1, [] => []
  | k + 1, _ :: cs => replaceAllGo pat rep k cs
  | 0, [] => []
  | 0, c :: cs =>
    if pat.isPrefixOf (c :: cs) then rep ++ replaceAllGo pat rep (pat.length - 1) cs
    else c :: replaceAllGo pat rep 0 cs

/-- `s.replace(pat, rep)` for a nonempty pattern (all patterns used by the
source are nonempty literals). -/
def replaceAll (pat rep l : List Char) : List Char := replaceAllGo pat rep 0 l

/-- `re.sub(r'\s+', ' ', s)`: every maximal run of whitespace becomes one
space.  The `Bool` state records whether the previous character was
whitespace (i.e. we are inside a run that has already emitted its space). -/
def collapseWsGo : Bool → List Char → List Char
  | _, [] => []
  | inRun, c :: cs =>
    if isPyWs c then
      if inRun then collapseWsGo true cs else ' ' :: collapseWsGo true cs
    else c :: collapseWsGo false cs

/-- `re.sub(r'\s+', ' ', s)` on a character list. -/
def collapseWs (l : List Char) : List Char := collapseWsGo false l

/-- Python `str.strip()`: drop leading and trailing whitespace. -/
def trimWs (l : List Char) : List Char :=
  ((l.dropWhile isPyWs).reverse.dropWhile isPyWs).reverse

/-- `strip_html_tags` (quizzes.py lines 15-26): empty input short-circuits to
`""`; otherwise strip `<...>` tags, apply the five `str.replace` entity
substitutions in source order (`&nbsp;`, `&amp;`, `&lt;`, `&gt;`, `&quot;`),
collapse whitespace runs, and strip.  The Python `None` (null) case of the
falsy test is modelled separately by `strip_html_tags_opt`. -/
def strip_html_tags (html_content : String) : String :=
  if html_content = "" then ""
  else
    let clean0 := removeTags html_content.data
    let clean1 := replaceAll "&nbsp;".data " ".data clean0
    let clean2 := replaceAll "&amp;".data "&".data clean1
    let clean3 := replaceAll "&lt;".data "<".data clean2
    let clean4 := replaceAll "&gt;".data ">".data clean3
    let clean5 := replaceAll "&quot;".data "\"".data clean4
    String.mk (trimWs (collapseWs clean5))

/-- `strip_html_tags` lifted to `Option String`, so the Python `None` argument
(falsy, hence also returning `""`) is representable. -/
def strip_html_tags_opt : Option String → String
  | none => ""
  | some s => strip_html_tags s

/-- The claim's description of `strip_html_tags`, stated as its own pipeline:
remove maximal `<[^>]+>` runs, decode the five named entities in the listed
order (`&nbsp;` to a space, then `&amp;`, `&lt;`, `&gt;`, `&quot;`), collapse
every whitespace run to a single space, and strip leading and trailing
whitespace.  Compared with the source embedding in
`strip_html_tags_spec`. -/
def strip_html_spec (s : String) : String :=
  String.mk (trimWs (collapseWs
    (replaceAll "&quot;".data "\"".data
      (replaceAll "&gt;".data ">".data
        (replaceAll "&lt;".data "<".data
          (replaceAll "&amp;".data "&".data
            (replaceAll "&nbsp;".data " ".data
              (removeTags s.data))))))))

/-! ## Quiz tools (quizzes.py)

A quiz record as consumed by `list_quizzes`, `get_quiz_details` and
`start_quiz`: only the fields those handlers read for the start-eligibility
logic.  `Option` models a missing key / JSON null; `dict.get` defaults are
applied at the use sites exactly as in the source. -/
structure Quiz where
  time_limit : Option Int
  allowed_attempts : Option Int
  title : Option String
  deriving DecidableEq, Repr

/-- `allowed_attempts` as read by the handlers: `q.get("allowed_attempts", 1)`. -/
def Quiz.attempts (q : Quiz) : Int := q.allowed_attempts.getD 1

/-- `q.get("title", "Untitled")`. -/
def Quiz.titleD (q : Quiz) : String := q.title.getD "Untitled"

/-- The "can start via API" predicate, computed identically at quizzes.py
line 71 (`list_quizzes`), line 126 (`get_quiz_details`) and, negated, as the
guard at line 255 (`start_quiz`):
`time_limit is None or allowed_attempts == -1`. -/
def can_start_api (time_limit : Option Int) (allowed_attempts : Int) : Bool :=
  time_limit.isNone || allowed_attempts == -1

/-- The `api_note` string appended to a quiz line by `list_quizzes`
(quizzes.py line 72). -/
def list_quizzes_api_note (q : Quiz) : String :=
  if can_start_api q.time_limit q.attempts then " [API start OK]" else ""

/-- The "API Start Allowed" line of `get_quiz_details` (quizzes.py line 152),
without the surrounding newlines. -/
def quiz_details_api_line (q : Quiz) : String :=
  "API Start Allowed: " ++
    (if can_start_api q.time_limit q.attempts then "Yes" else "No (timed + limited attempts)")

/-- Error string returned by `start_quiz` when fetching the quiz fails
(quizzes.py line 247). -/
def quizFetchErrorMsg (e : String) : String := "Error fetching quiz: " ++ e

/-- The refusal message of `start_quiz` (quizzes.py lines 256-260), for a quiz
with time limit `t` minutes and `att` allowed attempts. -/
def start_quiz_refusal (title : String) (t att : Int) : String :=
  "Cannot start quiz '" ++ title ++ "' via API.\n" ++
  "Reason: Quiz has BOTH a time limit (" ++ toString t ++ " min) AND limited attempts (" ++
    toString att ++ ").\n" ++
  "Please take this quiz directly in Canvas to ensure proper timing."

/-- A quiz-submission record as read by `start_quiz` from the POST response. -/
structure QuizSubmission where
  id : Option Nat
  attempt : Option Nat
  validation_token : Option String
  started_at : Option String
  end_at : Option String
  deriving DecidableEq, Repr

/-- Modelled from the spec: `core/dates.py` (`format_date`) is not under
`src/`; the spec says only that handlers format dates human-readably (§4.3).
We model it as an abstract rendering of the optional raw date string; no claim
depends on its exact output. -/
def format_date : Option String → String
  | none => "N/A"
  | some d => d

/-- Python `f"{x}"` for a value that may be `None` (e.g. `submission_id`,
`validation_token` in `start_quiz`'s success message): `None` renders as the
literal text `None`. -/
def pyShowOpt [ToString α] : Option α → String
  | none => "None"
  | some a => toString a

/-- The success-path tail of `start_quiz` (quizzes.py lines 262-294): issue the
POST, then either surface its error, report missing submission data, or format
the started-quiz message. -/
def start_quiz_post (title : String) (postResp : Except String (List QuizSubmission)) : String :=
  match postResp with
  | .error e => s!"Error starting quiz: {e}"
  | .ok [] => "Quiz started but no submission data returned."
  | .ok (sub :: _) =>
    let sid := pyShowOpt sub.id
    let att := pyShowOpt sub.attempt
    let tok := pyShowOpt sub.validation_token
    let started := format_date sub.started_at
    let endAt := format_date sub.end_at
    s!"Quiz Started: {title}\n\n" ++
    "IMPORTANT - Save these values for answering questions:\n" ++
    s!"  Submission ID: {sid}\n" ++
    s!"  Attempt: {att}\n" ++
    s!"  Validation Token: {tok}\n" ++
    "\nTiming:\n" ++
    s!"  Started: {started}\n" ++
    (if endAt ≠ "" then s!"  Must Complete By: {endAt}\n" else "") ++
    s!"\nNext: Use get_quiz_questions({sid}) to see the questions."

/-- `start_quiz` (quizzes.py lines 230-294) after course resolution, as a
function of the two remote responses it may consume: the quiz-details GET and
the submission-creating POST.  The returned `Bool` records whether the POST
was issued (the code path reached line 263). -/
def start_quiz (quizResp : Except String Quiz)
    (postResp : Except String (List QuizSubmission)) : String × Bool :=
  match quizResp with
  | .error e => (quizFetchErrorMsg e, false)
  | .ok quiz =>
    let title := quiz.titleD
    match quiz.time_limit with
    | some t =>
      if quiz.attempts != -1 then (start_quiz_refusal title t quiz.attempts, false)
      else (start_quiz_post title postResp, true)
    | none => (start_quiz_post title postResp, true)

/-! ## File size formatting (files.py `_format_file_size`, lines 265-280)

The Python loop divides a `float` by 1024 up to three times; division of a
double by 1024 is exact, so for sizes below `2^53` (the exact-integer range of
a double, far above any real file size) the value rendered is exactly
`size_bytes / 1024^unit_index`.  `f"{size:.1f}"` correctly rounds that exact
value to one decimal, ties to even, which `roundHalfEven` reproduces on the
exact rational `num/den`. -/

/-- Round `num/den` to the nearest integer, ties to even (the rounding used by
Python's fixed-point float formatting on exactly representable values). -/
def roundHalfEven (num den : Nat) : Nat :=
  let q := num / den
  let r := num % den
  if 2 * r < den then q
  else if den < 2 * r then q + 1
  else if q % 2 = 0 then q else q + 1

/-- The value of `unit_index` when the `while size >= 1024 and unit_index <
len(units) - 1` loop exits, for a positive size: the loop divides by 1024 once
per iteration and runs at most three times. -/
def unitIndex (n : Nat) : Nat :=
  if 1024 ^ 3 ≤ n then 3 else if 1024 ^ 2 ≤ n then 2 else if 1024 ≤ n then 1 else 0

/-- The units list of `_format_file_size`. -/
def sizeUnits : List String := ["B", "KB", "MB", "GB"]

/-- Render `num/den` with one decimal place (`f"{size:.1f}"` on the exact
value `num/den`). -/
def oneDecimal (num den : Nat) : String :=
  let tenths := roundHalfEven (10 * num) den
  toString (tenths / 10) ++ "." ++ toString (tenths % 10)

/-- `_format_file_size` (files.py lines 265-280). -/
def format_file_size (size_bytes : Nat) : String :=
  if size_bytes = 0 then "0 B"
  else
    let k := unitIndex size_bytes
    if k = 0 then toString size_bytes ++ " B"
    else oneDecimal size_bytes (1024 ^ k) ++ " " ++ (sizeUnits.getD k "")

/-! ## Download destination path (files.py `download_file`, lines 179-201)

The filesystem state when the download runs is modelled as the static
predicate `occupied` (the value of `os.path.exists` on each candidate path).
-/

/-- `os.path.splitext` (posixpath) on a file name: split off the extension at
the last dot, unless that dot lies in the directory part or everything between
the last separator and the dot is dots (so `.bashrc` has no extension). -/
def splitext (p : String) : String × String :=
  let rev := p.data.reverse
  let extRev := rev.takeWhile (· ≠ '.')
  match rev.dropWhile (· ≠ '.') with
  | [] => (p, "")
  | _dot :: baseRev =>
    if extRev.contains '/' then (p, "")
    else if (baseRev.takeWhile (· ≠ '/')).all (· = '.') then (p, "")
    else (String.mk baseRev.reverse, String.mk ('.' :: extRev.reverse))

/-- `os.path.join(folder, name)` (posixpath). -/
def pjoin (folder name : String) : String :=
  if name.data.take 1 = ['/'] then name
  else if folder.data = [] ∨ folder.data.getLast? = some '/' then folder ++ name
  else folder ++ "/" ++ name

/-- The candidate path tried at collision counter `n`:
`os.path.join(dest_folder, f"{base}_{counter}{ext}")`. -/
def collision_candidate (folder base ext : String) (n : Nat) : String :=
  pjoin folder (base ++ "_" ++ toString n ++ ext)

/-- The `while os.path.exists(dest_path)` loop (files.py lines 190-192),
started at counter `n`: return the first unoccupied candidate.  `fuel` bounds
the search so the definition is total; `none` models a loop that never finds a
free name, impossible on a real (finite) filesystem. -/
def find_free_path (occupied : String → Bool) (folder base ext : String) :
    Nat → Nat → Option String
  | 0, _ => none
  | fuel + 1, n =>
    let cand := collision_candidate folder base ext n
    if occupied cand then find_free_path occupied folder base ext fuel (n + 1)
    else some cand

/-- The destination path `download_file` writes to (files.py lines 184-192):
the plain join if free, otherwise the first free `{base}_{counter}{ext}`
candidate, counting from 1. -/
def download_dest_path (occupied : String → Bool) (destFolder name : String)
    (fuel : Nat) : Option String :=
  let p := pjoin destFolder name
  if occupied p then
    let be := splitext name
    find_free_path occupied destFolder be.1 be.2 fuel 1
  else some p

/-! ## Error-message templates and the single-line property (C7) -/

/-- A string with no newline character. -/
def SingleLine (s : String) : Prop := '\n' ∉ s.data

instance (s : String) : Decidable (SingleLine s) := by unfold SingleLine; infer_instance

/-- files.py line 170. -/
def fileDetailsErrorMsg (e : String) : String := "Error fetching file details: " ++ e

/-- files.py line 212: `f"Download failed with HTTP error: {e.response.status_code}"`. -/
def downloadHttpErrorMsg (status : Nat) : String :=
  "Download failed with HTTP error: " ++ toString status

/-- files.py line 214: `f"Download failed: {str(e)}"`. -/
def downloadExcErrorMsg (e : String) : String := "Download failed: " ++ e

/-! ## Pages (other_tools.py `get_page_content`, lines 54-79) and
discussion entry details (discussions.py, lines 178-266)

Each handler is embedded as a function of the remote responses it may consume
(course resolution, which precedes every remote call, is modelled upstream:
the handlers receive the resolved course display name).  The second component
of the result is the list of remote requests the handler issued, in order. -/

/-- The remote endpoints requested by the two handlers modelled below. -/
inductive Req
  | pageGet       -- GET /courses/{id}/pages/{url}
  | viewGet       -- GET /courses/{id}/discussion_topics/{topic}/view
  | entryListGet  -- GET .../discussion_topics/{topic}/entry_list?ids[]={entry}
  | repliesGet    -- paginated GET .../entries/{entry}/replies
  | topicGet      -- GET .../discussion_topics/{topic}
  deriving DecidableEq, Repr

/-- A page record as read by `get_page_content`. -/
structure PageR where
  title : Option String
  body : Option String
  updated_at : Option String
  deriving DecidableEq, Repr

/-- `get_page_content` (other_tools.py lines 54-79): one GET; on failure the
error string is returned at once and no further request is made; on success
the body is tag-stripped (`re.sub(r'<[^>]+>', '', body).strip()`) and
formatted. -/
def get_page_content (course_display : String) (resp : Except String PageR) :
    String × List Req :=
  match resp with
  | .error e => ("Error fetching page: " ++ e, [Req.pageGet])
  | .ok page =>
    let title := page.title.getD "Untitled"
    let body := page.body.getD ""
    let updated := format_date page.updated_at
    if body = "" then (s!"Page '{title}' has no content.", [Req.pageGet])
    else
      let clean := String.mk (trimWs (removeTags body.data))
      (s!"Page: {title}\nCourse: {course_display}\nUpdated: {updated}\n\n{clean}",
        [Req.pageGet])

/-- A reply record (fields read by the formatter). -/
structure Reply where
  user_name : Option String
  message : Option String
  created_at : Option String
  deriving DecidableEq, Repr

/-- A discussion entry as it appears in the `view` response. -/
structure Entry where
  id : Nat
  user_name : Option String
  message : Option String
  created_at : Option String
  replies : List Reply
  deriving DecidableEq, Repr

deriving instance DecidableEq for Except

/-- The four remote responses `get_discussion_entry_details` may consume.
`view` is the `view` array of the full-topic GET; `topic` carries the optional
`title` field of the topic GET. -/
structure DiscussionResponses where
  view : Except String (List Entry)
  entry_list : Except String (List Entry)
  replies_fetch : Except String (List Reply)
  topic : Except String (Option String)
  deriving DecidableEq, Repr

/-- One numbered reply line (discussions.py line 262). -/
def render_reply (i : Nat) (r : Reply) : String :=
  let u := r.user_name.getD "Unknown"
  let m := r.message.getD ""
  let c := format_date r.created_at
  s!"\n{i}. {u} ({c}):\n{m}\n"

/-- `for i, reply in enumerate(replies, 1)` (discussions.py lines 258-262). -/
def render_replies : Nat → List Reply → String
  | _, [] => ""
  | i, r :: rs => render_reply i r ++ render_replies (i + 1) rs

/-- The tail of `get_discussion_entry_details` once an entry has been found
(discussions.py lines 226-266): optionally fetch replies (only when
`include_replies` and none came with the entry; a failed fetch leaves the list
empty), always fetch the topic title, then format. -/
def entry_details_render (course_display : String) (entry_id : Nat)
    (include_replies : Bool) (o : DiscussionResponses)
    (entry : Entry) (replies0 : List Reply) (reqs : List Req) : String × List Req :=
  let replies :=
    if include_replies && replies0.isEmpty then
      match o.replies_fetch with
      | .ok rs => rs
      | .error _ => []
    else replies0
  let reqs1 :=
    if include_replies && replies0.isEmpty then reqs ++ [Req.repliesGet] else reqs
  let topic_title :=
    match o.topic with
    | .ok t => t.getD "Unknown Topic"
    | .error _ => "Unknown Topic"
  let reqs2 := reqs1 ++ [Req.topicGet]
  let user_name := entry.user_name.getD "Unknown user"
  let message := entry.message.getD ""
  let created_at := format_date entry.created_at
  let header :=
    s!"Discussion Post in '{topic_title}' ({course_display}):\n\n" ++
    s!"Author: {user_name}\nPosted: {created_at}\nPost ID: {entry_id}\n\n" ++
    s!"Content:\n{message}\n"
  let nreps := replies.length
  let tail :=
    if include_replies && !replies.isEmpty then
      s!"\nReplies ({nreps}):\n" ++ String.mk (List.replicate 40 '=') ++ "\n" ++
        render_replies 1 replies
    else if include_replies then "\nNo replies yet."
    else ""
  (header ++ tail, reqs2)

/-- Step 1 of `get_discussion_entry_details` (discussions.py lines 196-209):
scan the `view` response for the entry whose id matches, taking its inline
replies when `include_replies`; a failed request yields nothing. -/
def entry_from_view (entry_id : Nat) (include_replies : Bool)
    (viewResp : Except String (List Entry)) : Option (Entry × List Reply) :=
  match viewResp with
  | .ok entries =>
    (entries.find? (fun e => e.id == entry_id)).map
      (fun e => (e, if include_replies then e.replies else []))
  | .error _ => none

/-- Step 2, the fallback (discussions.py lines 211-221): the first element of
a successful, nonempty `entry_list` response (the code does not re-check its
id). -/
def entry_from_list : Except String (List Entry) → Option Entry
  | .ok (e :: _) => some e
  | _ => none

/-- `get_discussion_entry_details` (discussions.py lines 178-266): try the
`view` endpoint; when it fails or lacks the entry, fall back to the
`entry_list` endpoint; when both yield nothing, report the post as not found;
otherwise render via `entry_details_render`. -/
def get_discussion_entry_details (course_display : String) (topic_id entry_id : Nat)
    (include_replies : Bool) (o : DiscussionResponses) : String × List Req :=
  match entry_from_view entry_id include_replies o.view with
  | some er => entry_details_render course_display entry_id include_replies o
      er.1 er.2 [Req.viewGet]
  | none =>
    match entry_from_list o.entry_list with
    | none =>
      (s!"Could not find post {entry_id} in discussion {topic_id}.",
        [Req.viewGet, Req.entryListGet])
    | some entry => entry_details_render course_display entry_id include_replies o
        entry [] [Req.viewGet, Req.entryListGet]

/-- A remote-response environment in which the `view` request fails and the
fallback `entry_list` request succeeds (used to exercise the fallback path of
`get_discussion_entry_details`). -/
def viewFailsOracle : DiscussionResponses :=
  { view := .error "boom"
    entry_list := .ok [⟨7, some "alice", some "hi", none, []⟩]
    replies_fetch := .ok []
    topic := .ok (some "Week 1") }

/-! ## Paginated fetcher (spec-modelled) -/

/-- Modelled from the spec: `core/client.py` (`fetch_all_paginated_results`)
is not under `src/`.  Spec §4.2: follow the pagination cursor page by page,
concatenating every page's items in response order; stop and surface an error
immediately, with the failure reason, if any page request fails.  The server's
page sequence is modelled as the list of per-page outcomes in traversal
order. -/
def fetch_all {α : Type} : List (Except String (List α)) → Except String (List α)
  | [] => .ok []
  | .error e :: _ => .error e
  | .ok items :: rest =>
    match fetch_all rest with
    | .error e => .error e
    | .ok tailItems => .ok (items ++ tailItems)

/-- The reason of the first failing page, if any page fails. -/
def first_failure {α : Type} : List (Except String (List α)) → Option String
  | [] => none
  | .error e :: _ => some e
  | .ok _ :: rest => first_failure rest

/-! ## Course-identifier resolver (spec-modelled) -/

/-- A user-supplied course reference (spec §3): a numeric id or a course
code. -/
inductive CourseRef
  | byId (id : Nat)
  | byCode (code : String)
  deriving DecidableEq, Repr

/-- The two-directional identifier cache (spec §3 "Cache Entry"). -/
structure CourseCache where
  code_to_id : List (String × Nat)
  id_to_code : List (Nat × String)
  deriving DecidableEq, Repr

/-- Modelled from the spec: `core/cache.py` (`get_course_id`) is not under
`src/`.  Spec §4.1: a numeric identifier is returned unchanged; a code is
looked up in the cache, with a remote lookup on miss that populates both cache
directions; an unmatched code fails with a NotFound condition.  `server` is
the remote listing lookup; the last component counts the remote lookups this
call performed. -/
def resolve (server : String → Option Nat) (c : CourseCache) :
    CourseRef → Except String Nat × CourseCache × Nat
  | .byId n => (.ok n, c, 0)
  | .byCode s =>
    match c.code_to_id.lookup s with
    | some id => (.ok id, c, 0)
    | none =>
      match server s with
      | some id => (.ok id, ⟨(s, id) :: c.code_to_id, (id, s) :: c.id_to_code⟩, 1)
      | none => (.error s!"Course not found: {s}", c, 1)

/-- Spec §4.1: `reverse_lookup(id)` returns the cached code, if resolved
before. -/
def reverse_lookup (c : CourseCache) (id : Nat) : Option String :=
  c.id_to_code.lookup id

end CanvasMCP

namespace CanvasMCP

example : strip_html_tags "<p>Hello&nbsp;&amp;&lt;world&gt;</p>" = "Hello &<world>" := by decide
example : strip_html_tags "&amp;lt;" = "<" := by decide
example : strip_html_tags "  a \t\n b  " = "a b" := by decide
example : strip_html_tags "<a<b>" = "" := by decide
example : strip_html_tags "<>x" = "<>x" := by decide

example : format_file_size 0 = "0 B" := by decide
example : format_file_size 1536 = "1.5 KB" := by decide
example : format_file_size 1048576 = "1.0 MB" := by decide
example : format_file_size 1023 = "1023 B" := by decide
example : format_file_size 1280 = "1.2 KB" := by decide
example : format_file_size 1024 = "1.0 KB" := by decide
example : (start_quiz (.ok ⟨some 30, some 2, some "Q"⟩) (.ok [])).2 = false := by decide

/-! ## Claim theorems -/

/-- C1: the "can start via API" predicate shared by `list_quizzes`,
`get_quiz_details` and `start_quiz` is true exactly when the time limit is
absent (null) or the allowed-attempts count is the unlimited sentinel `-1`,
and false exactly when a finite time limit and a finite attempt count are both
set; `start_quiz` issues its POST exactly when the predicate holds, and the
two formatters mark the quiz startable exactly when it holds. -/
theorem can_start_api_characterization :
    (∀ (tl : Option Int) (att : Int),
      (can_start_api tl att = true ↔ tl = none ∨ att = -1) ∧
      (can_start_api tl att = false ↔ (∃ t, tl = some t) ∧ att ≠ -1)) ∧
    (∀ (q : Quiz) (post : Except String (List QuizSubmission)),
      (start_quiz (.ok q) post).2 = can_start_api q.time_limit q.attempts) ∧
    (∀ q : Quiz, list_quizzes_api_note q ≠ "" ↔ can_start_api q.time_limit q.attempts = true) ∧
    (∀ q : Quiz, quiz_details_api_line q = "API Start Allowed: Yes" ↔
      can_start_api q.time_limit q.attempts = true) := by
  refine ⟨?_, ?_, ?_, ?_⟩
  · intro tl att
    cases tl <;> simp [can_start_api]
  · intro q post
    cases h : q.time_limit with
    | none => simp [start_quiz, can_start_api, h]
    | some t =>
      by_cases ha : q.attempts = -1 <;>
        simp [start_quiz, can_start_api, h, ha]
  · intro q
    unfold list_quizzes_api_note
    split <;> simp_all
  · intro q
    unfold quiz_details_api_line
    split <;> simp_all

/-- C1 witness: the characterization evaluated on a timed, attempt-limited
quiz. -/
theorem can_start_api_characterization_witness :
    (can_start_api (some 30) 2 = true ↔ (some 30 : Option Int) = none ∨ (2 : Int) = -1) ∧
    (can_start_api (some 30) 2 = false ↔
      (∃ t, (some 30 : Option Int) = some t) ∧ (2 : Int) ≠ -1) :=
  can_start_api_characterization.1 (some 30) 2

/-- C2: when the fetched quiz has a present time limit and a finite attempt
count, `start_quiz` returns the refusal message and does not issue the
submission-creating POST; the POST is issued exactly when the quiz has no time
limit or unlimited attempts (and the quiz fetch succeeded). -/
theorem start_quiz_refuses_blocked_quizzes :
    (∀ (q : Quiz) (post : Except String (List QuizSubmission)) (t : Int),
      q.time_limit = some t → q.attempts ≠ -1 →
      start_quiz (.ok q) post = (start_quiz_refusal q.titleD t q.attempts, false)) ∧
    (∀ (q : Quiz) (post : Except String (List QuizSubmission)),
      (start_quiz (.ok q) post).2 = true ↔ q.time_limit = none ∨ q.attempts = -1) ∧
    (∀ (e : String) (post : Except String (List QuizSubmission)),
      (start_quiz (.error e) post).2 = false) := by
  refine ⟨?_, ?_, ?_⟩
  · intro q post t ht ha
    simp [start_quiz, ht, ha]
  · intro q post
    cases h : q.time_limit with
    | none => simp [start_quiz, h]
    | some t =>
      by_cases ha : q.attempts = -1 <;> simp [start_quiz, h, ha]
  · intro e post
    rfl

/-- C2 witness: a quiz with a 30-minute limit and 2 attempts is refused. -/
theorem start_quiz_refuses_blocked_quizzes_witness :
    start_quiz (.ok ⟨some 30, some 2, some "Quiz A"⟩) (.ok []) =
      (start_quiz_refusal "Quiz A" 30 2, false) :=
  start_quiz_refuses_blocked_quizzes.1 ⟨some 30, some 2, some "Quiz A"⟩ (.ok []) 30 rfl
    (by decide)

/-- C3: if any page of the traversed page sequence fails, `fetch_all` returns
the (first) failure's reason as an error; a successful result requires every
traversed page to have succeeded, so a mid-sequence failure can never yield a
truncated success — in particular for page 2 of 3. -/
theorem fetch_all_no_partial_success :
    (∀ {α : Type} (pages : List (Except String (List α))) (e : String),
      first_failure pages = some e → fetch_all pages = .error e) ∧
    (∀ {α : Type} (pages : List (Except String (List α))) (l : List α),
      fetch_all pages = .ok l → ∀ p ∈ pages, ∃ items, p = .ok items) ∧
    (∀ (items1 : List Nat) (e : String) (p3 : Except String (List Nat)),
      fetch_all [.ok items1, .error e, p3] = .error e) := by
  refine ⟨?_, ?_, ?_⟩
  · intro α pages
    induction pages with
    | nil => intro e h; simp [first_failure] at h
    | cons p rest ih =>
      intro e h
      cases p with
      | error e' =>
        simp [first_failure] at h
        simp [fetch_all, h]
      | ok items =>
        simp only [first_failure] at h
        simp [fetch_all, ih e h]
  · intro α pages
    induction pages with
    | nil => intro l _ p hp; simp at hp
    | cons p rest ih =>
      intro l h q hq
      cases p with
      | error e' => simp [fetch_all] at h
      | ok items =>
        simp only [fetch_all] at h
        cases hrest : fetch_all rest with
        | error e' => rw [hrest] at h; exact absurd h (by simp)
        | ok t =>
          rw [hrest] at h
          rcases List.mem_cons.mp hq with rfl | hq'
          · exact ⟨items, rfl⟩
          · exact ih t hrest q hq'
  · intro items1 e p3
    rfl

/-- C3 witness: with page 2 of 3 failing, the result is the error, not a
truncated list. -/
theorem fetch_all_no_partial_success_witness :
    fetch_all [Except.ok [1, 2], Except.error "network failure", Except.ok [3, 4]] =
      (Except.error "network failure" : Except String (List Nat)) :=
  fetch_all_no_partial_success.1 _ "network failure" rfl

/-- C4: resolution is idempotent — a numeric reference resolves to itself with
no remote lookup and an unchanged cache; when a code resolves successfully,
resolving it again against the resulting cache returns the same id as a cache
hit (zero lookups), the first call having used at most one. -/
theorem resolve_idempotent_cached :
    (∀ (server : String → Option Nat) (c : CourseCache) (n : Nat),
      resolve server c (.byId n) = (.ok n, c, 0)) ∧
    (∀ (server : String → Option Nat) (c : CourseCache) (s : String) (id : Nat),
      (resolve server c (.byCode s)).1 = .ok id →
      (resolve server (resolve server c (.byCode s)).2.1 (.byCode s)).1 = .ok id ∧
      (resolve server (resolve server c (.byCode s)).2.1 (.byCode s)).2.2 = 0 ∧
      (resolve server c (.byCode s)).2.2 ≤ 1) := by
  constructor
  · intro server c n; rfl
  · intro server c s id h
    cases hc : c.code_to_id.lookup s with
    | some id' =>
      simp [resolve, hc] at h ⊢
      simp [h]
    | none =>
      cases hs : server s with
      | some id' =>
        simp [resolve, hc, hs] at h ⊢
        simp [List.lookup, h]
      | none =>
        simp [resolve, hc, hs] at h

/-- C4 witness: resolving the code CS101 against an empty cache and a server
that knows it, twice, yields 42 both times with a single remote lookup. -/
theorem resolve_idempotent_cached_witness :
    let server := fun s => if s = "CS101" then some 42 else none
    (resolve server ⟨[], []⟩ (.byCode "CS101")).1 = .ok 42 ∧
    (resolve server (resolve server ⟨[], []⟩ (.byCode "CS101")).2.1 (.byCode "CS101")).1 =
      .ok 42 ∧
    (resolve server (resolve server ⟨[], []⟩ (.byCode "CS101")).2.1 (.byCode "CS101")).2.2 =
      0 ∧
    (resolve server ⟨[], []⟩ (.byCode "CS101")).2.2 ≤ 1 := by
  refine ⟨by decide, ?_⟩
  exact resolve_idempotent_cached.2 _ ⟨[], []⟩ "CS101" 42 (by decide)

/-- C10: the entity replacements are sequential, with `&amp;` decoded before
`&lt;`, `&gt;` and `&quot;`, so doubly encoded entities are doubly decoded:
`&amp;lt;` yields `<` (not the literal `&lt;`), and likewise for the other
two; `&amp;nbsp;` stays `&nbsp;` because the `&nbsp;` pass runs first, so the
decoding is not a single-pass entity decode. -/
theorem strip_html_tags_double_decode :
    strip_html_tags "&amp;lt;" = "<" ∧
    "<" ≠ "&lt;" ∧
    strip_html_tags "&amp;gt;" = ">" ∧
    strip_html_tags "&amp;quot;" = "\"" ∧
    strip_html_tags "&amp;nbsp;" = "&nbsp;" ∧
    strip_html_tags "&lt;" = "<" := by decide

/-- `collapseWsGo` on a whitespace head in state `true`: skip it. -/
theorem collapseWsGo_cons_ws_true (hd : Char) (tl : List Char) (h : isPyWs hd = true) :
    collapseWsGo true (hd :: tl) = collapseWsGo true tl := by
  simp [collapseWsGo, h]

/-- `collapseWsGo` on a whitespace head in state `false`: emit one space. -/
theorem collapseWsGo_cons_ws_false (hd : Char) (tl : List Char) (h : isPyWs hd = true) :
    collapseWsGo false (hd :: tl) = ' ' :: collapseWsGo true tl := by
  simp [collapseWsGo, h]

/-- `collapseWsGo` on a non-whitespace head: emit it and reset the state. -/
theorem collapseWsGo_cons_not_ws (b : Bool) (hd : Char) (tl : List Char)
    (h : isPyWs hd = false) :
    collapseWsGo b (hd :: tl) = hd :: collapseWsGo false tl := by
  cases b <;> simp [collapseWsGo, h]

/-- Whitespace characters surviving `collapseWs` are single spaces. -/
theorem collapseWsGo_mem_ws (l : List Char) : ∀ (b : Bool) (c : Char),
    c ∈ collapseWsGo b l → isPyWs c = true → c = ' ' := by
  induction l with
  | nil => intro b c h _; cases b <;> simp [collapseWsGo] at h
  | cons hd tl ih =>
    intro b c h hw
    by_cases hws : isPyWs hd
    · cases b with
      | false =>
        rw [collapseWsGo_cons_ws_false hd tl hws] at h
        rcases List.mem_cons.mp h with rfl | h'
        · rfl
        · exact ih true c h' hw
      | true =>
        rw [collapseWsGo_cons_ws_true hd tl hws] at h
        exact ih true c h hw
    · rw [collapseWsGo_cons_not_ws b hd tl (by simpa using hws)] at h
      rcases List.mem_cons.mp h with rfl | h'
      · exact absurd hw (by simpa using hws)
      · exact ih false c h' hw

/-- After a space has just been emitted (state `true`), the next emitted
character is not whitespace. -/
theorem collapseWsGo_head_true (l : List Char) :
    ∀ c, (collapseWsGo true l).head? = some c → isPyWs c = false := by
  induction l with
  | nil => intro c h; simp [collapseWsGo] at h
  | cons hd tl ih =>
    intro c h
    by_cases hws : isPyWs hd
    · rw [collapseWsGo_cons_ws_true hd tl hws] at h
      exact ih c h
    · rw [collapseWsGo_cons_not_ws true hd tl (by simpa using hws)] at h
      rw [List.head?_cons, Option.some_inj] at h
      subst h
      simpa using hws

/-- No two adjacent whitespace characters survive `collapseWs`. -/
theorem collapseWsGo_chain (l : List Char) : ∀ b : Bool,
    List.Chain' (fun a b => isPyWs a = true → isPyWs b = false) (collapseWsGo b l) := by
  induction l with
  | nil => intro b; cases b <;> simp [collapseWsGo]
  | cons hd tl ih =>
    intro b
    by_cases hws : isPyWs hd
    · cases b with
      | false =>
        rw [collapseWsGo_cons_ws_false hd tl hws, List.chain'_cons']
        exact ⟨fun y hy _ => collapseWsGo_head_true tl y hy, ih true⟩
      | true =>
        rw [collapseWsGo_cons_ws_true hd tl hws]
        exact ih true
    · rw [collapseWsGo_cons_not_ws b hd tl (by simpa using hws), List.chain'_cons']
      exact ⟨fun y _ hcon => absurd hcon (by simpa using hws), ih false⟩

/-- `trimWs` keeps a contiguous middle segment of its input. -/
theorem trimWs_middle (l : List Char) : trimWs l <:+: l := by
  unfold trimWs
  have h1 : (l.dropWhile isPyWs).reverse.dropWhile isPyWs <:+ (l.dropWhile isPyWs).reverse :=
    List.dropWhile_suffix isPyWs
  have h1' : ((l.dropWhile isPyWs).reverse.dropWhile isPyWs).reverse.reverse <:+
      (l.dropWhile isPyWs).reverse := by
    rw [List.reverse_reverse]; exact h1
  have h2 : ((l.dropWhile isPyWs).reverse.dropWhile isPyWs).reverse <+: l.dropWhile isPyWs :=
    List.reverse_suffix.mp h1'
  exact h2.isInfix.trans (List.dropWhile_suffix isPyWs).isInfix

/-- The first character left by `trimWs` is not whitespace. -/
theorem trimWs_head (l : List Char) (c : Char) (h : (trimWs l).head? = some c) :
    isPyWs c = false := by
  unfold trimWs at h
  rw [List.head?_reverse] at h
  have hne : (l.dropWhile isPyWs).reverse.dropWhile isPyWs ≠ [] := by
    intro hnil; rw [hnil] at h; simp at h
  obtain ⟨t, ht⟩ := List.dropWhile_suffix (l := (l.dropWhile isPyWs).reverse) isPyWs
  have hY : (l.dropWhile isPyWs).reverse.getLast? = some c := by
    rw [← ht, List.getLast?_append_of_ne_nil _ hne]
    exact h
  rw [List.getLast?_reverse] at hY
  have hmatch := List.head?_dropWhile_not isPyWs l
  rw [hY] at hmatch
  exact hmatch

/-- The last character left by `trimWs` is not whitespace. -/
theorem trimWs_getLast (l : List Char) (c : Char) (h : (trimWs l).getLast? = some c) :
    isPyWs c = false := by
  unfold trimWs at h
  rw [List.getLast?_reverse] at h
  have hmatch := List.head?_dropWhile_not isPyWs ((l.dropWhile isPyWs).reverse)
  rw [h] at hmatch
  exact hmatch

/-- Whitespace normalisation of the final two pipeline stages: all whitespace
is single spaces, isolated, and absent from both ends. -/
theorem stripped_ws_normalized (m : List Char) :
    (∀ c ∈ trimWs (collapseWs m), isPyWs c = true → c = ' ') ∧
    List.Chain' (fun a b => isPyWs a = true → isPyWs b = false) (trimWs (collapseWs m)) ∧
    (∀ c, (trimWs (collapseWs m)).head? = some c → isPyWs c = false) ∧
    (∀ c, (trimWs (collapseWs m)).getLast? = some c → isPyWs c = false) := by
  refine ⟨?_, ?_, fun c => trimWs_head _ c, fun c => trimWs_getLast _ c⟩
  · intro c hc hw
    exact collapseWsGo_mem_ws m false c
      ((trimWs_middle (collapseWs m)).sublist.subset hc) hw
  · obtain ⟨s, t, hst⟩ := trimWs_middle (collapseWs m)
    have hc : List.Chain' (fun a b => isPyWs a = true → isPyWs b = false) (collapseWs m) :=
      collapseWsGo_chain m false
    rw [← hst] at hc
    exact hc.left_of_append.right_of_append

/-- C5: `strip_html_tags` equals the claim's pipeline — tags removed as
maximal `<[^>]+>` runs, the five named entities decoded in the listed order,
whitespace runs collapsed, ends stripped — with empty (and null) input giving
the empty string; and its output is whitespace-normalised: every surviving
whitespace character is a single isolated space and the result neither starts
nor ends with whitespace. -/
theorem strip_html_tags_spec :
    (∀ s : String, strip_html_tags s = strip_html_spec s) ∧
    strip_html_tags_opt none = "" ∧
    strip_html_tags "" = "" ∧
    (∀ s : String,
      (∀ c ∈ (strip_html_tags s).data, isPyWs c = true → c = ' ') ∧
      List.Chain' (fun a b => isPyWs a = true → isPyWs b = false) (strip_html_tags s).data ∧
      (∀ c, (strip_html_tags s).data.head? = some c → isPyWs c = false) ∧
      (∀ c, (strip_html_tags s).data.getLast? = some c → isPyWs c = false)) := by
  have hdata : ∀ s : String, (strip_html_tags s).data =
      trimWs (collapseWs
        (replaceAll "&quot;".data "\"".data
          (replaceAll "&gt;".data ">".data
            (replaceAll "&lt;".data "<".data
              (replaceAll "&amp;".data "&".data
                (replaceAll "&nbsp;".data " ".data
                  (removeTags s.data))))))) := by
    intro s
    by_cases hs : s = ""
    · subst hs; rfl
    · simp [strip_html_tags, hs]
  refine ⟨?_, rfl, rfl, ?_⟩
  · intro s
    by_cases hs : s = ""
    · subst hs; rfl
    · simp [strip_html_tags, strip_html_spec, hs]
  · intro s
    rw [hdata s]
    exact stripped_ws_normalized _

/-- C5 witness: the whitespace-normalisation clause evaluated on a concrete
input whose runs were collapsed. -/
theorem strip_html_tags_spec_witness :
    strip_html_tags " a \t\n b " = "a b" ∧
    ' ' ∈ (strip_html_tags " a \t\n b ").data ∧ isPyWs ' ' = true ∧ (' ' : Char) = ' ' :=
  ⟨by decide, by decide, by decide,
    (strip_html_tags_spec.2.2.2 " a \t\n b ").1 ' ' (by decide) (by decide)⟩

/-- C6: file sizes format as `0 B`, `1.5 KB`, `1.0 MB` on the spec's three
examples; a positive size below 1024 bytes renders as an integer byte count
with unit `B`; a size of at least 1024 renders as the size divided by 1024
once per unit step (at most three), with one decimal place and the matching
unit. -/
theorem format_file_size_spec :
    format_file_size 0 = "0 B" ∧
    format_file_size 1536 = "1.5 KB" ∧
    format_file_size 1048576 = "1.0 MB" ∧
    (∀ n : Nat, 0 < n → n < 1024 → format_file_size n = toString n ++ " B") ∧
    (∀ n : Nat, 1024 ≤ n →
      1 ≤ unitIndex n ∧ unitIndex n ≤ 3 ∧
      format_file_size n =
        oneDecimal n (1024 ^ unitIndex n) ++ " " ++ sizeUnits.getD (unitIndex n) "") := by
  have e2 : (1024 : Nat) ^ 2 = 1048576 := by norm_num
  have e3 : (1024 : Nat) ^ 3 = 1073741824 := by norm_num
  refine ⟨by decide, by decide, by decide, ?_, ?_⟩
  · intro n hpos hlt
    have h0 : ¬ n = 0 := by omega
    have hk : unitIndex n = 0 := by
      unfold unitIndex
      rw [e3, e2, if_neg (by omega), if_neg (by omega), if_neg (by omega)]
    simp [format_file_size, h0, hk]
  · intro n h
    have hk1 : 1 ≤ unitIndex n := by
      unfold unitIndex
      rw [e3, e2]
      repeat' split
      all_goals omega
    have hk3 : unitIndex n ≤ 3 := by
      unfold unitIndex
      rw [e3, e2]
      repeat' split
      all_goals omega
    have h0 : ¬ n = 0 := by omega
    have hkne : ¬ unitIndex n = 0 := by omega
    refine ⟨hk1, hk3, ?_⟩
    simp [format_file_size, h0, hkne]

/-- C6 witness: the sub-kilobyte rule at 500 and the general rule at 2048. -/
theorem format_file_size_spec_witness :
    (0 < 500 ∧ 500 < 1024 ∧ format_file_size 500 = toString 500 ++ " B") ∧
    (1024 ≤ 2048 ∧ 1 ≤ unitIndex 2048 ∧ unitIndex 2048 ≤ 3 ∧
      format_file_size 2048 =
        oneDecimal 2048 (1024 ^ unitIndex 2048) ++ " " ++ sizeUnits.getD (unitIndex 2048) "") :=
  ⟨⟨by decide, by decide, format_file_size_spec.2.2.2.1 500 (by decide) (by decide)⟩,
   by decide, format_file_size_spec.2.2.2.2 2048 (by decide)⟩

/-- The collision loop returns the first free candidate, all earlier
candidates being occupied. -/
theorem find_free_path_some (occupied : String → Bool) (folder base ext : String) :
    ∀ (fuel n : Nat) (p : String),
      find_free_path occupied folder base ext fuel n = some p →
      occupied p = false ∧
      ∃ k : Nat, p = collision_candidate folder base ext (n + k) ∧
        ∀ j, j < k → occupied (collision_candidate folder base ext (n + j)) = true := by
  intro fuel
  induction fuel with
  | zero => intro n p h; simp [find_free_path] at h
  | succ fuel ih =>
    intro n p h
    simp only [find_free_path] at h
    by_cases hocc : occupied (collision_candidate folder base ext n)
    · rw [if_pos hocc] at h
      obtain ⟨hfree, k, hp, hall⟩ := ih (n + 1) p h
      refine ⟨hfree, k + 1, by rw [hp, show n + 1 + k = n + (k + 1) by omega], ?_⟩
      intro j hj
      cases j with
      | zero => simpa using hocc
      | succ j' =>
        have := hall j' (by omega)
        rwa [show n + 1 + j' = n + (j' + 1) by omega] at this
    · rw [if_neg hocc] at h
      obtain rfl : collision_candidate folder base ext n = p := Option.some_inj.mp h
      exact ⟨by simpa using hocc, 0, by simp, fun j hj => absurd hj (Nat.not_lt_zero j)⟩

/-- C9: when the joined destination path is free, `download_file` writes
there; when it already exists, the content goes to
`{base}_{N}{ext}` for the least positive `N` whose path does not exist, every
smaller positive counter being taken — so no existing file is overwritten. -/
theorem download_dest_path_no_overwrite :
    (∀ (occupied : String → Bool) (destFolder name : String) (fuel : Nat),
      occupied (pjoin destFolder name) = false →
      download_dest_path occupied destFolder name fuel = some (pjoin destFolder name)) ∧
    (∀ (occupied : String → Bool) (destFolder name : String) (fuel : Nat) (p : String),
      occupied (pjoin destFolder name) = true →
      download_dest_path occupied destFolder name fuel = some p →
      occupied p = false ∧
      ∃ N : Nat, 1 ≤ N ∧
        p = collision_candidate destFolder (splitext name).1 (splitext name).2 N ∧
        ∀ m, 1 ≤ m → m < N →
          occupied (collision_candidate destFolder (splitext name).1 (splitext name).2 m) =
            true) := by
  constructor
  · intro occ f nm fuel h
    simp [download_dest_path, h]
  · intro occ f nm fuel p h hp
    simp only [download_dest_path, h, if_true] at hp
    obtain ⟨hfree, k, hpk, hall⟩ :=
      find_free_path_some occ f (splitext nm).1 (splitext nm).2 fuel 1 p hp
    refine ⟨hfree, 1 + k, by omega, hpk, ?_⟩
    intro m h1 hm
    have h2 := hall (m - 1) (by omega)
    rwa [show 1 + (m - 1) = m by omega] at h2

/-- C9 witness: with `a.txt` and `a_1.txt` taken, the download lands on
`a_2.txt`, which is free. -/
theorem download_dest_path_no_overwrite_witness :
    (fun q : String =>
        decide (q = "~/Downloads/a.txt" ∨ q = "~/Downloads/a_1.txt")) "~/Downloads/a_2.txt" =
      false ∧
    ∃ N : Nat, 1 ≤ N ∧
      "~/Downloads/a_2.txt" =
        collision_candidate "~/Downloads" (splitext "a.txt").1 (splitext "a.txt").2 N ∧
      ∀ m, 1 ≤ m → m < N →
        (fun q : String =>
          decide (q = "~/Downloads/a.txt" ∨ q = "~/Downloads/a_1.txt"))
          (collision_candidate "~/Downloads" (splitext "a.txt").1 (splitext "a.txt").2 m) =
          true :=
  download_dest_path_no_overwrite.2
    (fun q => decide (q = "~/Downloads/a.txt" ∨ q = "~/Downloads/a_1.txt"))
    "~/Downloads" "a.txt" 10 "~/Downloads/a_2.txt" (by decide) (by decide)

/-- `Nat.digitChar` never produces a newline. -/
theorem digitChar_ne_newline (m : Nat) : Nat.digitChar m ≠ '\n' := by
  rcases Nat.lt_or_ge m 16 with hlt | hge
  · interval_cases m <;> decide
  · have hstar : Nat.digitChar m = '*' := by
      have hm0 : m ≠ 0 := by omega
      have hm1 : m ≠ 1 := by omega
      have hm2 : m ≠ 2 := by omega
      have hm3 : m ≠ 3 := by omega
      have hm4 : m ≠ 4 := by omega
      have hm5 : m ≠ 5 := by omega
      have hm6 : m ≠ 6 := by omega
      have hm7 : m ≠ 7 := by omega
      have hm8 : m ≠ 8 := by omega
      have hm9 : m ≠ 9 := by omega
      have hm10 : m ≠ 10 := by omega
      have hm11 : m ≠ 11 := by omega
      have hm12 : m ≠ 12 := by omega
      have hm13 : m ≠ 13 := by omega
      have hm14 : m ≠ 14 := by omega
      have hm15 : m ≠ 15 := by omega
      simp [Nat.digitChar, hm0, hm1, hm2, hm3, hm4, hm5, hm6, hm7, hm8, hm9, hm10,
        hm11, hm12, hm13, hm14, hm15]
    rw [hstar]; decide

/-- Every character emitted by `Nat.toDigitsCore` is a digit character or came
from the accumulator. -/
theorem toDigitsCore_chars (b : Nat) : ∀ (f n : Nat) (l : List Char) (c : Char),
    c ∈ Nat.toDigitsCore b f n l → (∃ m, c = Nat.digitChar m) ∨ c ∈ l := by
  intro f
  induction f with
  | zero => intro n l c h; exact Or.inr (by simpa [Nat.toDigitsCore] using h)
  | succ f ih =>
    intro n l c h
    simp only [Nat.toDigitsCore] at h
    by_cases hz : n / b = 0
    · rw [if_pos hz] at h
      rcases List.mem_cons.mp h with rfl | h'
      · exact Or.inl ⟨n % b, rfl⟩
      · exact Or.inr h'
    · rw [if_neg hz] at h
      rcases ih (n / b) (Nat.digitChar (n % b) :: l) c h with hm | hl
      · exact Or.inl hm
      · rcases List.mem_cons.mp hl with rfl | h'
        · exact Or.inl ⟨n % b, rfl⟩
        · exact Or.inr h'

/-- The decimal rendering of a natural number contains no newline. -/
theorem natRepr_no_newline (n : Nat) : '\n' ∉ (toString n).data := by
  intro h
  have h' : '\n' ∈ Nat.toDigitsCore 10 (n + 1) n [] := h
  rcases toDigitsCore_chars 10 (n + 1) n [] '\n' h' with ⟨m, hm⟩ | hl
  · exact digitChar_ne_newline m hm.symm
  · simp at hl

set_option maxRecDepth 8192 in
/-- C7 counterexample: the refusal `start_quiz` returns for a timed,
attempt-limited quiz is a failure value returned to the caller (the POST is
not issued), yet it is not single-line — it contains embedded newlines. -/
theorem single_line_failure_counterexample :
    (start_quiz (.ok ⟨some 30, some 2, some "Quiz A"⟩) (.ok [])).1 =
      start_quiz_refusal "Quiz A" 30 2 ∧
    (start_quiz (.ok ⟨some 30, some 2, some "Quiz A"⟩) (.ok [])).2 = false ∧
    ¬ SingleLine (start_quiz (.ok ⟨some 30, some 2, some "Quiz A"⟩) (.ok [])).1 := by
  decide

/-- C7 amended: every failure is returned as a human-readable message string
built from a fixed template with the failure reason embedded; the remote- and
file-failure templates are single-line whenever the embedded reason is (the
HTTP-status template unconditionally so), but the `start_quiz` refusal always
spans multiple lines, so not every failure message is single-line. -/
theorem failure_messages_human_readable :
    (∀ e, SingleLine e → SingleLine (quizFetchErrorMsg e)) ∧
    (∀ e, SingleLine e → SingleLine (fileDetailsErrorMsg e)) ∧
    (∀ e, SingleLine e → SingleLine (downloadExcErrorMsg e)) ∧
    (∀ status : Nat, SingleLine (downloadHttpErrorMsg status)) ∧
    (∀ (title : String) (t att : Int), ¬ SingleLine (start_quiz_refusal title t att)) := by
  have happend : ∀ a b : String, SingleLine a → SingleLine b → SingleLine (a ++ b) := by
    intro a b ha hb h
    rcases List.mem_append.mp (by rwa [String.data_append] at h) with h1 | h2
    · exact ha h1
    · exact hb h2
  have hl : ∀ a b : String, '\n' ∈ a.data → '\n' ∈ (a ++ b).data := by
    intro a b h
    rw [String.data_append]
    exact List.mem_append_left _ h
  have hr : ∀ a b : String, '\n' ∈ b.data → '\n' ∈ (a ++ b).data := by
    intro a b h
    rw [String.data_append]
    exact List.mem_append_right _ h
  refine ⟨?_, ?_, ?_, ?_, ?_⟩
  · intro e he; exact happend _ _ (by decide) he
  · intro e he; exact happend _ _ (by decide) he
  · intro e he; exact happend _ _ (by decide) he
  · intro st; exact happend _ _ (by decide) (natRepr_no_newline st)
  · intro title t att h
    exact h (hl _ _ (hl _ _ (hl _ _ (hl _ _ (hl _ _ (hl _ _ (hr _ _ (by decide))))))))

/-- C7 amended witness: a single-line reason yields a single-line quiz-fetch
error message. -/
theorem failure_messages_human_readable_witness :
    SingleLine "Connection timed out" ∧ SingleLine (quizFetchErrorMsg "Connection timed out") :=
  ⟨by decide, failure_messages_human_readable.1 "Connection timed out" (by decide)⟩

/-- The request trace of the rendering tail: an optional replies fetch, then
the topic fetch. -/
theorem entry_details_render_trace (cd : String) (eid : Nat) (incl : Bool)
    (o : DiscussionResponses) (entry : Entry) (r0 : List Reply) (reqs : List Req) :
    (entry_details_render cd eid incl o entry r0 reqs).2 =
      (if incl && r0.isEmpty then reqs ++ [Req.repliesGet] else reqs) ++ [Req.topicGet] := rfl

set_option maxRecDepth 8192 in
/-- C8 counterexample: when the `view` request fails,
`get_discussion_entry_details` does not surface that failure; it issues three
further remote requests (the `entry_list` fallback, the replies fetch, the
topic fetch) on that code path. -/
theorem no_retry_counterexample :
    viewFailsOracle.view = .error "boom" ∧
    (get_discussion_entry_details "CS101" 1 7 true viewFailsOracle).2 =
      [Req.viewGet, Req.entryListGet, Req.repliesGet, Req.topicGet] :=
  ⟨rfl, rfl⟩

/-- C8 amended: no handler re-issues a failed request — every request trace is
duplicate-free (and `get_page_content` surfaces a failed page request
immediately as an error string, its trace being exactly the one request) —
but `get_discussion_entry_details` does fall back to the `entry_list`
endpoint after a failed `view` request rather than surfacing the failure. -/
theorem no_retry_no_duplicate_requests :
    (∀ (cd e : String),
      get_page_content cd (.error e) = ("Error fetching page: " ++ e, [Req.pageGet])) ∧
    (∀ (cd : String) (tid eid : Nat) (incl : Bool) (o : DiscussionResponses),
      (get_discussion_entry_details cd tid eid incl o).2.Nodup ∧
      (get_discussion_entry_details cd tid eid incl o).2.head? = some Req.viewGet) := by
  constructor
  · intro cd e; rfl
  · intro cd tid eid incl o
    unfold get_discussion_entry_details
    cases hfv : entry_from_view eid incl o.view with
    | some er =>
      simp only [entry_details_render_trace]
      by_cases hc : (incl && er.2.isEmpty) = true
      · rw [if_pos hc]; exact ⟨by decide, rfl⟩
      · rw [if_neg hc]; exact ⟨by decide, rfl⟩
    | none =>
      cases hfl : entry_from_list o.entry_list with
      | none =>
        exact ⟨by show List.Nodup [Req.viewGet, Req.entryListGet]; decide, rfl⟩
      | some entry =>
        simp only [entry_details_render_trace]
        by_cases hc : (incl && List.isEmpty ([] : List Reply)) = true
        · rw [if_pos hc]; exact ⟨by decide, rfl⟩
        · rw [if_neg hc]; exact ⟨by decide, rfl⟩

end CanvasMCP
